import Mathlib

/-!
Shallow embedding of the purduehackers/identities authorization-server core
(src/src/lib.rs and src/api/authorize.rs), with theorems checking the
natural-language specification against it.

Modelling conventions:
* Instants are modelled at second resolution.  A `UtcDateTime` is a proleptic
  Gregorian calendar datetime; `UtcDateTime.timestamp` is its Unix timestamp in
  seconds.  chrono's `DateTime<Utc> + Months::new(n)` is `addMonths` (calendar
  month addition with the day-of-month clamped to the target month's length).
* `Utc::now()` is an explicit parameter of every function that calls it.
* oxide_auth's `Scope` and redirect `Url` are modelled as strings; the grant's
  `extensions` field is always `Default::default()` in the source and is
  omitted.
* JWTs (`jsonwebtoken::encode`/`decode`) are modelled as a claims record plus
  a signature value; `decodeJwt` accepts a token iff its signature matches the
  key's signature of its claims and the configured issuer, audience and expiry
  checks pass, mirroring `Validation` as set up by `get_validator`.
* Database state (`auth_grant` and `auth_token` tables) is a pair of row
  lists; SeaORM `find ... one` is `List.find?`, an `insert` appends, a `save`
  keyed on the primary key updates the matching row.  Randomly generated
  codes/tokens and fresh primary keys are explicit parameters.  Rust panics
  (`expect`) on storage results are modelled as `Option.none` results.
-/

/-- Proleptic Gregorian leap-year predicate (as in chrono's calendar). -/
def isLeap (y : Nat) : Bool := y % 4 == 0 && (y % 100 != 0 || y % 400 == 0)

/-- Number of days of month `m` (1..12) in year `y`. -/
def daysInMonth (y : Nat) (m : Nat) : Nat :=
  if m == 2 then (if isLeap y then 29 else 28)
  else if m == 4 || m == 6 || m == 9 || m == 11 then 30
  else 31

/-- Days in year `y` strictly before the first day of month `m`. -/
def daysBeforeMonth (y : Nat) (m : Nat) : Nat :=
  (List.range (m - 1)).foldl (fun acc i => acc + daysInMonth y (i + 1)) 0

/-- Number of leap years in `[0, y)` (year 0 counts as a leap year). -/
def leapsBefore (y : Nat) : Nat :=
  (y + 3) / 4 - (y + 99) / 100 + (y + 399) / 400

/-- Days from 0000-01-01 to the given proleptic Gregorian date. -/
def daysFromYear0 (y m d : Nat) : Nat :=
  365 * y + leapsBefore y + daysBeforeMonth y m + (d - 1)

/-- A UTC datetime at second resolution (chrono `DateTime<Utc>`). -/
structure UtcDateTime where
  year : Nat
  month : Nat
  day : Nat
  secOfDay : Nat
deriving DecidableEq, Repr

/-- Unix timestamp in seconds (chrono `DateTime::timestamp`). -/
def UtcDateTime.timestamp (t : UtcDateTime) : Int :=
  ((daysFromYear0 t.year t.month t.day : Int) - (daysFromYear0 1970 1 1 : Int)) * 86400
    + t.secOfDay

/-- chrono `DateTime<Utc> + Months::new(n)`: calendar-month addition, with the
day-of-month clamped to the length of the target month and the time of day
preserved. -/
def addMonths (t : UtcDateTime) (n : Nat) : UtcDateTime :=
  let tm := t.year * 12 + (t.month - 1) + n
  let y := tm / 12
  let m := tm % 12 + 1
  { year := y, month := m, day := min t.day (daysInMonth y m), secOfDay := t.secOfDay }

/-- One entry of the static client registry (`ClientData` in src/src/lib.rs). -/
structure ClientData where
  client_id : String
  url : String
  scope : String
deriving DecidableEq, Repr

/-- The compiled-in client registry `VALID_CLIENTS` of src/src/lib.rs. -/
def VALID_CLIENTS : List ClientData := [
  { client_id := "dashboard",
    url := "https://dash.purduehackers.com/api/callback",
    scope := "user:read" },
  { client_id := "passports",
    url := "https://passports.purduehackers.com/callback",
    scope := "user:read user" },
  { client_id := "authority",
    url := "authority://callback",
    scope := "admin:read admin" },
  { client_id := "auth-test",
    url := "https://id-auth.purduehackers.com/api/auth/callback/purduehackers-id",
    scope := "user:read" },
  { client_id := "vulcan-auth",
    url := "https://auth.purduehackers.com/source/oauth/callback/purduehackers-id/",
    scope := "user:read" },
  { client_id := "shad-moe",
    url := "https://auth.shad.moe/source/oauth/callback/purduehackers-id/",
    scope := "user:read" },
  { client_id := "shquid",
    url := "https://www.imsqu.id/auth/callback/purduehackers-id",
    scope := "user:read" }]

/-- The semantic grant tuple (oxide_auth `Grant`; `extensions` omitted, always
default in the source).  `until` is a Unix timestamp in seconds. -/
structure Grant where
  owner_id : String
  client_id : String
  scope : String
  redirect_uri : String
  untilTime : Int
deriving DecidableEq, Repr

/-- The JWT claims set of src/src/lib.rs (`struct Claims`). -/
structure Claims where
  sub : String
  exp : Int
  iat : Int
  iss : String
  aud : String
  scope : String
deriving DecidableEq, Repr

/-- A simple string hash, used to give the modelled JWT signature a concrete
executable definition. -/
def strHash (s : String) : Nat :=
  s.data.foldl (fun h c => h * 131 + c.toNat) 7

/-- Model of the asymmetric signature over a claims set under key `key`. -/
def signClaims (key : Nat) (c : Claims) : Nat :=
  strHash (c.sub ++ "|" ++ toString c.exp ++ "|" ++ toString c.iat ++ "|" ++ c.iss
      ++ "|" ++ c.aud ++ "|" ++ c.scope) + 1000003 * key

/-- A signed token: payload claims plus signature (`jsonwebtoken` JWT). -/
structure Jwt where
  claims : Claims
  sig : Nat
deriving DecidableEq, Repr

/-- `jsonwebtoken::encode` under key `key`. -/
def encodeJwt (key : Nat) (c : Claims) : Jwt :=
  { claims := c, sig := signClaims key c }

/-- The checks configured on a `jsonwebtoken::Validation`: expected issuer and
the accepted audience list (see `get_validator`). -/
structure Validation where
  iss : String
  auds : List String
deriving DecidableEq, Repr

/-- `jsonwebtoken::decode` under key `key` at time `now`: succeeds iff the
signature verifies and the issuer, audience and expiry checks of `val` pass
(expiry fails exactly when `exp` is in the past). -/
def decodeJwt (key : Nat) (val : Validation) (now : Int) (t : Jwt) : Option Claims :=
  if t.sig = signClaims key t.claims ∧ t.claims.iss = val.iss
      ∧ t.claims.aud ∈ val.auds ∧ now ≤ t.claims.exp
  then some t.claims else none

/-- The two issuer domains of src/src/lib.rs (`enum IdIsuser`, name as in the
source). -/
inductive IdIsuser where
  | Id
  | IdGrant
deriving DecidableEq, Repr

/-- `get_validator` of src/src/lib.rs: expected issuer `"id"` or `"id-grant"`,
audience restricted to the registered client identifiers. -/
def get_validator (iss : IdIsuser) : Validation :=
  { iss := match iss with
      | IdIsuser.Id => "id"
      | IdIsuser.IdGrant => "id-grant",
    auds := VALID_CLIENTS.map (fun c => c.client_id) }

/-- oxide_auth `TokenType` as used by the issuers (always `Bearer`). -/
inductive TokenType where
  | Bearer
deriving DecidableEq, Repr

/-- oxide_auth `IssuedToken`, parametric in the token representation (a `Jwt`
for the signed strategy, an opaque string for the relational strategy). -/
structure IssuedToken (τ : Type) where
  token : τ
  refresh : Option τ
  token_type : TokenType
  untilTime : Int
deriving DecidableEq, Repr

/-- oxide_auth `RefreshedToken`; never constructed by this program. -/
structure RefreshedToken where
  token : String
  untilTime : Int
deriving DecidableEq, Repr

/-- `JwtIssuer::issue` (src/src/lib.rs lines 333-361): claims with subject the
grant's owner, audience the grant's client, issuer `"id"`, issued-at `now`,
expiry `now + Months::new(1)`, signed with the deployment key. -/
def JwtIssuer.issue (key : Nat) (now : UtcDateTime) (grant : Grant) : IssuedToken Jwt :=
  let until' := addMonths now 1
  let claims : Claims :=
    { sub := grant.owner_id, exp := until'.timestamp, iat := now.timestamp,
      iss := "id", aud := grant.client_id, scope := grant.scope }
  { token := encodeJwt key claims, refresh := none, token_type := TokenType.Bearer,
    untilTime := until'.timestamp }

/-- `JwtIssuer::refresh`: no refresh tokens, always `Err(())`. -/
def JwtIssuer.refresh (t : String) (grant : Grant) : Except Unit RefreshedToken :=
  Except.error ()

/-- `JwtIssuer::recover_token` (src/src/lib.rs lines 372-400): decode under the
`"id"` validator; on success re-derive the redirect URI from `VALID_CLIENTS`
by the audience claim, failing if the audience is not registered. -/
def JwtIssuer.recover_token (key : Nat) (now : Int) (t : Jwt) :
    Except Unit (Option Grant) :=
  match decodeJwt key (get_validator IdIsuser.Id) now t with
  | none => Except.error ()
  | some claims =>
    match VALID_CLIENTS.find? (fun c => decide (c.client_id = claims.aud)) with
    | none => Except.error ()
    | some c =>
      Except.ok (some
        { owner_id := claims.sub, client_id := claims.aud, scope := claims.scope,
          untilTime := claims.exp, redirect_uri := c.url })

/-- `JwtIssuer::recover_refresh`: no refresh tokens, always `Err(())`. -/
def JwtIssuer.recover_refresh (t : String) : Except Unit (Option Grant) :=
  Except.error ()

/-- `JwtAuthorizer::authorize` (src/src/lib.rs lines 557-579): sign the grant
as claims with issuer `"id-grant"` and expiry the grant's own expiry. -/
def JwtAuthorizer.authorize (key : Nat) (now : UtcDateTime) (grant : Grant) : Jwt :=
  encodeJwt key
    { sub := grant.owner_id, exp := grant.untilTime, iat := now.timestamp,
      iss := "id-grant", aud := grant.client_id, scope := grant.scope }

/-- `JwtAuthorizer::extract` (src/src/lib.rs lines 581-606): decode under the
`"id-grant"` validator, then re-derive the redirect URI from `VALID_CLIENTS`
by the audience claim. -/
def JwtAuthorizer.extract (key : Nat) (now : Int) (token : Jwt) :
    Except Unit (Option Grant) :=
  match decodeJwt key (get_validator IdIsuser.IdGrant) now token with
  | none => Except.error ()
  | some claims =>
    match VALID_CLIENTS.find? (fun c => decide (c.client_id = claims.aud)) with
    | none => Except.error ()
    | some c =>
      Except.ok (some
        { owner_id := claims.sub, client_id := claims.aud, scope := claims.scope,
          untilTime := claims.exp, redirect_uri := c.url })

/-- Digits of a decimal numeral, accumulator style. -/
def natOfDigits (l : List Char) (acc : Nat) : Option Nat :=
  match l with
  | [] => some acc
  | c :: rest =>
    if '0' ≤ c ∧ c ≤ '9' then natOfDigits rest (acc * 10 + (c.toNat - 48))
    else none

/-- Model of Rust `str::parse::<i32>` for the owner-id columns: an optional
leading sign followed by at least one decimal digit (the `i32` overflow bound
is not modelled; owner identifiers are small). -/
def parseI32 (s : String) : Option Int :=
  match s.data with
  | [] => none
  | '-' :: rest =>
    if rest.isEmpty then none else (natOfDigits rest 0).map (fun n => -(n : Int))
  | l => (natOfDigits l 0).map (fun n => (n : Int))

/-- A row of the `auth_grant` table (entity `auth_grant::Model`): owner id is
an `i32` column, `code` is the nullable single-use authorization code. -/
structure AuthGrantRow where
  id : Nat
  owner_id : Int
  client_id : String
  redirect_uri : String
  untilTime : Int
  scope : String
  code : Option String
deriving DecidableEq, Repr

/-- A row of the `auth_token` table (entity `auth_token::Model`). -/
structure AuthTokenRow where
  id : Nat
  grant_id : Nat
  token : String
  untilTime : Int
deriving DecidableEq, Repr

/-- The relational store: the `auth_grant` and `auth_token` tables. -/
structure Db where
  grants : List AuthGrantRow
  tokens : List AuthTokenRow
deriving DecidableEq, Repr

/-- `DbAuthorizer::authorize` (src/src/lib.rs lines 613-642): insert a new
grant row carrying a freshly generated code (the random code and fresh primary
key are explicit parameters here) and return the code.  `None` models the
panic when the grant's owner id does not parse as an integer. -/
def DbAuthorizer.authorize (db : Db) (newCode : String) (newId : Nat)
    (grant : Grant) : Option (String × Db) :=
  match parseI32 grant.owner_id with
  | none => none
  | some oid =>
    let row : AuthGrantRow :=
      { id := newId, owner_id := oid, client_id := grant.client_id,
        redirect_uri := grant.redirect_uri, untilTime := grant.untilTime,
        scope := grant.scope, code := some newCode }
    some (newCode, { db with grants := db.grants ++ [row] })

/-- `DbAuthorizer::extract` (src/src/lib.rs lines 644-677): find the grant row
whose code column equals the presented code; if found, clear that row's code
column (a `save` keyed on the primary key) and return the reconstructed grant;
otherwise return `none` with the store unchanged. -/
def DbAuthorizer.extract (db : Db) (token : String) : Option Grant × Db :=
  match db.grants.find? (fun r => decide (r.code = some token)) with
  | none => (none, db)
  | some g =>
    let cleared :=
      db.grants.map (fun r => if r.id = g.id then { r with code := none } else r)
    (some
      { client_id := g.client_id, owner_id := toString g.owner_id,
        scope := g.scope, redirect_uri := g.redirect_uri, untilTime := g.untilTime },
      { db with grants := cleared })

/-- `DbIssuer::issue` (src/src/lib.rs lines 415-451): locate the pre-existing
grant row by owner and client, insert a token row with a fresh random token
(explicit parameter) expiring at `now + Months::new(1)`, and return it.
`None` models the panics when the owner id does not parse or no grant row
matches. -/
def DbIssuer.issue (db : Db) (newToken : String) (newId : Nat)
    (now : UtcDateTime) (grant : Grant) : Option (IssuedToken String × Db) :=
  match parseI32 grant.owner_id with
  | none => none
  | some oid =>
    match db.grants.find?
        (fun r => decide (r.owner_id = oid ∧ r.client_id = grant.client_id)) with
    | none => none
    | some g =>
      let row : AuthTokenRow :=
        { id := newId, grant_id := g.id, token := newToken,
          untilTime := (addMonths now 1).timestamp }
      some
        ({ token := row.token, refresh := none, token_type := TokenType.Bearer,
           untilTime := row.untilTime },
         { db with tokens := db.tokens ++ [row] })

/-- `DbIssuer::refresh`: no refresh tokens, always `Err(())`. -/
def DbIssuer.refresh (db : Db) (t : String) (grant : Grant) :
    Except Unit RefreshedToken :=
  Except.error ()

/-- `DbIssuer::recover_token` (src/src/lib.rs lines 462-499): look up the token
row by token string; if absent, `Ok(None)`; otherwise join to its grant row
(the outer `none` models the panic when the parent grant row is missing) and
reconstruct the grant, taking owner, client, scope and redirect URI from the
grant row and the expiry from the token row. -/
def DbIssuer.recover_token (db : Db) (t : String) : Option (Option Grant) :=
  match db.tokens.find? (fun r => decide (r.token = t)) with
  | none => some none
  | some tok =>
    match db.grants.find? (fun r => decide (r.id = tok.grant_id)) with
    | none => none
    | some g =>
      some (some
        { owner_id := toString g.owner_id, client_id := g.client_id,
          scope := g.scope, redirect_uri := g.redirect_uri,
          untilTime := tok.untilTime })

/-- `DbIssuer::recover_refresh`: no refresh tokens, always `Err(())`. -/
def DbIssuer.recover_refresh (db : Db) (t : String) : Except Unit (Option Grant) :=
  Except.error ()

/-- A query-parameter URL, as built by `Url::parse_with_params`. -/
structure UrlM where
  base : String
  params : List (String × String)
deriving DecidableEq, Repr

/-- The parts of a `ResponseCompat` the authorization flow manipulates:
status code and `Location` header. -/
structure RespM where
  status : Nat
  location : Option UrlM
deriving DecidableEq, Repr

/-- `ResponseCompat::default()`: an empty 200 response. -/
def RespM.default : RespM := { status := 200, location := none }

/-- `ResponseCompat::redirect` (src/src/lib.rs lines 100-108): set the
`Location` header to the URL and the status to 303 See Other. -/
def RespM.redirect (r : RespM) (u : UrlM) : RespM :=
  { r with status := 303, location := some u }

/-- oxide_auth `OwnerConsent`, the result of an owner solicitor. -/
inductive OwnerConsent (R : Type) where
  | Authorized (owner : String)
  | Denied
  | InProgress (resp : R)
deriving DecidableEq, Repr

/-- The owner-identifying query parameters of a consent-submission (POST)
request: badge/passport `id` and the explicit `allow` flag. -/
structure ConsentRequest where
  id : Int
  allow : Bool
deriving DecidableEq, Repr

/-- `PostSolicitor::check_consent` (src/api/authorize.rs lines 86-95), the live
consent decision on the POST path: it ignores the request entirely and returns
`OwnerConsent::Authorized("yippee")`. -/
def PostSolicitor.check_consent (req : ConsentRequest) : OwnerConsent RespM :=
  OwnerConsent.Authorized "yippee"

/-- A row of the owner (passport) table: integer identifier and whether the
owner is provisioned ("activated"). -/
structure PassportRow where
  id : Int
  activated : Bool
deriving DecidableEq, Repr

/-- The stores the presence-gated Consent Gate reads: the owner (passport)
table and the key-value store of Presence Signals (badge id ↦ readiness
flag). -/
structure ConsentStore where
  passports : List PassportRow
  kv : List (Int × Bool)
deriving DecidableEq, Repr

/-- The outcomes of the presence-gated consent decision named by the spec. -/
inductive ConsentOutcome where
  | OwnerNotFound
  | OwnerNotActivated
  | PresenceNotRecorded
  | PresenceNotReady
  | Denied
  | Authorized (owner : Int)
deriving DecidableEq, Repr

/-- Modelled from the spec: the presence-gated Consent Gate algorithm of §4.2
(this algorithm appears in src/api/authorize.rs only as commented-out code).
Look up the owner record — `OwnerNotFound` if absent, `OwnerNotActivated` if
not provisioned; atomically read-and-delete the Presence Signal —
`PresenceNotRecorded` if missing, `PresenceNotReady` if the flag is false;
`Denied` if the request's allow flag is false; otherwise `Authorized`. -/
def specConsentDecision (store : ConsentStore) (req : ConsentRequest) :
    ConsentOutcome × ConsentStore :=
  match store.passports.find? (fun p => decide (p.id = req.id)) with
  | none => (ConsentOutcome.OwnerNotFound, store)
  | some p =>
    if !p.activated then (ConsentOutcome.OwnerNotActivated, store)
    else
      match store.kv.find? (fun e => decide (e.1 = req.id)) with
      | none => (ConsentOutcome.PresenceNotRecorded, store)
      | some e =>
        let store' :=
          { store with kv := store.kv.filter (fun x => !decide (x.1 = req.id)) }
        if !e.2 then (ConsentOutcome.PresenceNotReady, store')
        else if !req.allow then (ConsentOutcome.Denied, store')
        else (ConsentOutcome.Authorized req.id, store')

/-- The pre-grant the authorization flow hands the solicitor (oxide_auth
`PreGrant`): validated client id, redirect URI and scope. -/
structure PreGrant where
  client_id : String
  redirect_uri : String
  scope : String
deriving DecidableEq, Repr

/-- The solicitor of `handle_get` (src/api/authorize.rs lines 170-194): build
the login-surface URL carrying the pre-grant's client_id, redirect_uri and
scope plus `response_type=code`, and answer `InProgress` with a redirect
response to it. -/
def handle_get_solicit (pg : PreGrant) : OwnerConsent RespM :=
  let url : UrlM :=
    { base := "https://id.purduehackers.com/authorize",
      params := [("client_id", pg.client_id), ("redirect_uri", pg.redirect_uri),
                 ("scope", pg.scope), ("response_type", "code")] }
  OwnerConsent.InProgress (RespM.default.redirect url)

/-- The query parameters of a `GET /authorize` request. -/
structure AuthRequest where
  client_id : String
  redirect_uri : String
  response_type : String
  scope : String
deriving DecidableEq, Repr

/-- Split a character list at spaces (the recursion behind `scopeWords`). -/
def splitOnSpace (l : List Char) (cur : List Char) : List (List Char) :=
  match l with
  | [] => [cur.reverse]
  | c :: rest =>
    if c = ' ' then cur.reverse :: splitOnSpace rest []
    else splitOnSpace rest (c :: cur)

/-- Scope strings are sets of space-delimited tokens. -/
def scopeWords (s : String) : List String :=
  (splitOnSpace s.data []).map (fun l => { data := l })

/-- Modelled from the spec: the validation the Authorization Flow Orchestrator
(the oxide_auth `AuthorizationFlow`, external to src/) performs on a
`GET /authorize` request before soliciting — the client exists in the
registry, the requested redirect URI matches the registered one, the response
type is `code` and the requested scope is a subset of the granted scope — and
on success hands the request's parameters to the solicitor as the pre-grant.
The solicitor and the redirect response are the src/ definitions. -/
def handle_get_flow (req : AuthRequest) : Option RespM :=
  match VALID_CLIENTS.find? (fun c => decide (c.client_id = req.client_id)) with
  | none => none
  | some c =>
    if req.redirect_uri = c.url ∧ req.response_type = "code"
        ∧ (∀ w ∈ scopeWords req.scope, w ∈ scopeWords c.scope) then
      match handle_get_solicit
          { client_id := req.client_id, redirect_uri := req.redirect_uri,
            scope := req.scope } with
      | OwnerConsent.InProgress r => some r
      | _ => none
    else none

/-- A sample issuance instant: 2024-01-15T00:00:00Z. -/
def sampleNow : UtcDateTime := { year := 2024, month := 1, day := 15, secOfDay := 0 }

/-- The registered dashboard client. -/
def dashboardClient : ClientData :=
  { client_id := "dashboard", url := "https://dash.purduehackers.com/api/callback",
    scope := "user:read" }

/-- A sample grant for the dashboard client. -/
def sampleGrant : Grant :=
  { owner_id := "42", client_id := "dashboard", scope := "user:read",
    redirect_uri := "https://dash.purduehackers.com/api/callback",
    untilTime := 1705280400 }

/-- A persisted grant row corresponding to `sampleGrant`, carrying an unspent
authorization code. -/
def sampleGrantRow : AuthGrantRow :=
  { id := 1, owner_id := 42, client_id := "dashboard",
    redirect_uri := "https://dash.purduehackers.com/api/callback",
    untilTime := 1705280400, scope := "user:read", code := some "CODE123" }

/-- A sample relational store holding just `sampleGrantRow`. -/
def sampleDb : Db := { grants := [sampleGrantRow], tokens := [] }

/-- Sample claims as minted for `sampleGrant`. -/
def sampleClaims : Claims :=
  { sub := "42", exp := 1707955200, iat := 1705276800, iss := "id",
    aud := "dashboard", scope := "user:read" }

/-- C7: token refresh always fails — the refresh and refresh-token-recovery
operations of both the signed-token issuer and the relational issuer return an
error, for every input token and grant. -/
theorem refresh_always_fails :
    (∀ t g, JwtIssuer.refresh t g = Except.error ()) ∧
    (∀ t, JwtIssuer.recover_refresh t = Except.error ()) ∧
    (∀ db t g, DbIssuer.refresh db t g = Except.error ()) ∧
    (∀ db t, DbIssuer.recover_refresh db t = Except.error ()) :=
  ⟨fun _ _ => rfl, fun _ => rfl, fun _ _ _ => rfl, fun _ _ => rfl⟩

/-- C9: authorization-code JWTs and access-token JWTs are domain-separated by
the issuer claim: codes are signed with `iss = "id-grant"`, access tokens with
`iss = "id"`, and each decoder validates only its own issuer, so a code minted
by `JwtAuthorizer.authorize` is rejected by `JwtIssuer.recover_token` and a
token minted by `JwtIssuer.issue` is rejected by `JwtAuthorizer.extract`. -/
theorem jwt_issuer_domain_separation (key : Nat) (now : UtcDateTime)
    (rnow : Int) (g : Grant) :
    (JwtAuthorizer.authorize key now g).claims.iss = "id-grant" ∧
    (JwtIssuer.issue key now g).token.claims.iss = "id" ∧
    JwtIssuer.recover_token key rnow (JwtAuthorizer.authorize key now g)
      = Except.error () ∧
    JwtAuthorizer.extract key rnow (JwtIssuer.issue key now g).token
      = Except.error () := by
  refine ⟨rfl, rfl, ?_, ?_⟩
  · have hd : decodeJwt key (get_validator IdIsuser.Id) rnow
        (JwtAuthorizer.authorize key now g) = none := by
      unfold decodeJwt
      rw [if_neg]
      rintro ⟨-, h2, -, -⟩
      simp [JwtAuthorizer.authorize, encodeJwt, get_validator] at h2
    unfold JwtIssuer.recover_token
    rw [hd]
  · have hd : decodeJwt key (get_validator IdIsuser.IdGrant) rnow
        (JwtIssuer.issue key now g).token = none := by
      unfold decodeJwt
      rw [if_neg]
      rintro ⟨-, h2, -, -⟩
      simp [JwtIssuer.issue, encodeJwt, get_validator] at h2
    unfold JwtAuthorizer.extract
    rw [hd]

/-- C1 (code bug): the live consent decision on the POST path is a stub — it
authorizes unconditionally as owner `"yippee"` for every request, so none of
the spec's presence-gated outcomes can occur; in particular, on a request for
owner 42 with an empty owner table and `allow = false`, the code authorizes
while the spec's algorithm requires `OwnerNotFound`. -/
theorem consent_gate_is_a_stub :
    (∀ req, PostSolicitor.check_consent req = OwnerConsent.Authorized "yippee") ∧
    PostSolicitor.check_consent { id := 42, allow := false }
      = OwnerConsent.Authorized "yippee" ∧
    (specConsentDecision { passports := [], kv := [] } { id := 42, allow := false }).1
      = ConsentOutcome.OwnerNotFound :=
  ⟨fun _ => rfl, rfl, rfl⟩

/-- C10: whenever the relational issuer's `recover_token` finds a token row and
its joined grant row, the reconstructed grant takes its expiry from the token
row's `until` column, while owner, client, scope and redirect URI come from
the grant row. -/
theorem db_recover_takes_expiry_from_token_row
    (db : Db) (t : String) (tok : AuthTokenRow) (g : AuthGrantRow)
    (h1 : db.tokens.find? (fun r => decide (r.token = t)) = some tok)
    (h2 : db.grants.find? (fun r => decide (r.id = tok.grant_id)) = some g) :
    DbIssuer.recover_token db t = some (some
      { owner_id := toString g.owner_id, client_id := g.client_id,
        scope := g.scope, redirect_uri := g.redirect_uri,
        untilTime := tok.untilTime }) := by
  simp only [DbIssuer.recover_token, h1, h2]

/-- A token row for the witness store, expiring at a different instant than
its parent grant row. -/
def sampleTokenRow : AuthTokenRow :=
  { id := 7, grant_id := 1, token := "OPAQUE", untilTime := 1707955200 }

/-- A relational store holding `sampleGrantRow` and `sampleTokenRow`. -/
def sampleDbWithToken : Db := { grants := [sampleGrantRow], tokens := [sampleTokenRow] }

/-- Witness for C10 at a concrete store in which the token row's expiry
(1707955200) differs from the grant row's (1705280400). -/
theorem db_recover_takes_expiry_from_token_row_witness :
    DbIssuer.recover_token sampleDbWithToken "OPAQUE" = some (some
      { owner_id := toString sampleGrantRow.owner_id,
        client_id := sampleGrantRow.client_id, scope := sampleGrantRow.scope,
        redirect_uri := sampleGrantRow.redirect_uri,
        untilTime := sampleTokenRow.untilTime }) :=
  db_recover_takes_expiry_from_token_row sampleDbWithToken "OPAQUE"
    sampleTokenRow sampleGrantRow rfl rfl

/-- Counterexample for C6: both issuers set the expiry to
`Utc::now() + Months::new(1)` — one calendar month, not 30 days.  Issuing on
2024-01-15 produces an expiry of 2024-02-15 (31 days = 2678400 seconds later,
timestamp 1707955200), not 2024-02-14 (timestamp 1707868800 = now + 30 days). -/
theorem thirty_day_expiry_counterexample :
    (JwtIssuer.issue 0 sampleNow sampleGrant).untilTime
        ≠ sampleNow.timestamp + 30 * 86400 ∧
    (DbIssuer.issue sampleDb "OPQ" 2 sampleNow sampleGrant).map
        (fun p => p.1.untilTime) ≠ some (sampleNow.timestamp + 30 * 86400) ∧
    (DbIssuer.issue sampleDb "OPQ" 2 sampleNow sampleGrant).map
        (fun p => p.1.untilTime) = some 1707955200 ∧
    sampleNow.timestamp + 30 * 86400 = 1707868800 := by
  refine ⟨by decide, by decide, by decide, by decide⟩

/-- C6 (amended): for every grant, the access token issued for it expires
exactly one calendar month after issuance time (chrono `Months::new(1)`,
day-of-month clamped), under both the signed-token strategy and the
relational strategy. -/
theorem token_expiry_one_calendar_month (key : Nat) (now : UtcDateTime)
    (g : Grant) (db : Db) (tokStr : String) (nid : Nat)
    (it : IssuedToken String) (db' : Db)
    (h : DbIssuer.issue db tokStr nid now g = some (it, db')) :
    (JwtIssuer.issue key now g).untilTime = (addMonths now 1).timestamp ∧
    it.untilTime = (addMonths now 1).timestamp := by
  refine ⟨rfl, ?_⟩
  unfold DbIssuer.issue at h
  split at h
  · exact Option.noConfusion h
  · split at h
    · exact Option.noConfusion h
    · injection h with h1
      injection h1 with ha hb
      rw [← ha]

/-- Witness for C6's amended theorem at the sample store and instant. -/
theorem token_expiry_one_calendar_month_witness :
    (JwtIssuer.issue 0 sampleNow sampleGrant).untilTime
      = (addMonths sampleNow 1).timestamp ∧
    ({ token := "OPQ", refresh := none, token_type := TokenType.Bearer,
       untilTime := (addMonths sampleNow 1).timestamp } : IssuedToken String).untilTime
      = (addMonths sampleNow 1).timestamp :=
  token_expiry_one_calendar_month 0 sampleNow sampleGrant sampleDb "OPQ" 2 _ _ rfl

/-- C2: authorization codes are single-use — when the store holds exactly one
grant row carrying code `c`, a first `extract c` returns the reconstructed
grant and clears the code column, and a second `extract c` on the resulting
store returns `none`. -/
theorem authorization_code_single_use (db : Db) (c : String) (g : AuthGrantRow)
    (h1 : db.grants.find? (fun r => decide (r.code = some c)) = some g)
    (h2 : ∀ r ∈ db.grants, r.code = some c → r = g) :
    (DbAuthorizer.extract db c).1 = some
      { client_id := g.client_id, owner_id := toString g.owner_id,
        scope := g.scope, redirect_uri := g.redirect_uri,
        untilTime := g.untilTime } ∧
    (DbAuthorizer.extract (DbAuthorizer.extract db c).2 c).1 = none := by
  have hnone : (db.grants.map
      (fun r => if r.id = g.id then { r with code := none } else r)).find?
        (fun r => decide (r.code = some c)) = none := by
    refine List.find?_eq_none.mpr ?_
    intro x hx
    rcases List.mem_map.mp hx with ⟨r, hr, hfr⟩
    by_cases hid : r.id = g.id
    · rw [if_pos hid] at hfr
      rw [← hfr]
      simp
    · rw [if_neg hid] at hfr
      rw [← hfr]
      simp only [decide_eq_true_eq]
      intro hc
      exact hid (by rw [h2 r hr hc])
  constructor
  · simp only [DbAuthorizer.extract, h1]
  · simp only [DbAuthorizer.extract, h1, hnone]

/-- Witness for C2: redeeming `"CODE123"` against the sample store succeeds
once and fails the second time. -/
theorem authorization_code_single_use_witness :
    (DbAuthorizer.extract sampleDb "CODE123").1 = some
      { client_id := sampleGrantRow.client_id,
        owner_id := toString sampleGrantRow.owner_id,
        scope := sampleGrantRow.scope,
        redirect_uri := sampleGrantRow.redirect_uri,
        untilTime := sampleGrantRow.untilTime } ∧
    (DbAuthorizer.extract (DbAuthorizer.extract sampleDb "CODE123").2 "CODE123").1
      = none :=
  authorization_code_single_use sampleDb "CODE123" sampleGrantRow rfl (by decide)

/-- C3: recovery by the signed-token issuer fails for every token whose
signature has been altered (does not match the key's signature of its claims),
whose audience is not a registered client identifier, or whose `exp` timestamp
is in the past — it never yields a grant. -/
theorem jwt_recover_rejects_invalid (key : Nat) (now : Int) (t : Jwt)
    (h : t.sig ≠ signClaims key t.claims
       ∨ t.claims.aud ∉ VALID_CLIENTS.map (fun c => c.client_id)
       ∨ t.claims.exp < now) :
    JwtIssuer.recover_token key now t = Except.error () := by
  have hd : decodeJwt key (get_validator IdIsuser.Id) now t = none := by
    unfold decodeJwt
    rw [if_neg]
    rintro ⟨h1, h2, h3, h4⟩
    rcases h with h | h | h
    · exact h h1
    · exact h h3
    · omega
  unfold JwtIssuer.recover_token
  rw [hd]

/-- Witness for C3: a token whose signature was altered (incremented) is
rejected. -/
theorem jwt_recover_rejects_invalid_witness :
    JwtIssuer.recover_token 0 0
      { claims := sampleClaims, sig := signClaims 0 sampleClaims + 1 }
      = Except.error () :=
  jwt_recover_rejects_invalid 0 0
    { claims := sampleClaims, sig := signClaims 0 sampleClaims + 1 }
    (Or.inl (Nat.succ_ne_self (signClaims 0 sampleClaims)))

/-- C5: every grant reconstructed by the signed-token issuer's recovery takes
its redirect URI from the client registry entry matching the token's audience
claim (the claims set carries no redirect URI at all), and recovery fails when
the audience matches no registered client. -/
theorem jwt_redirect_uri_from_registry :
    (∀ key now t g', JwtIssuer.recover_token key now t = Except.ok (some g') →
      ∃ c, VALID_CLIENTS.find? (fun cd => decide (cd.client_id = g'.client_id)) = some c
        ∧ g'.redirect_uri = c.url) ∧
    (∀ key now t, t.claims.aud ∉ VALID_CLIENTS.map (fun c => c.client_id) →
      JwtIssuer.recover_token key now t = Except.error ()) := by
  constructor
  · intro key now t g' h
    unfold JwtIssuer.recover_token at h
    split at h
    next => exact Except.noConfusion h
    next claims hd =>
      split at h
      next => exact Except.noConfusion h
      next c hf =>
        injection h with h1
        injection h1 with h2
        subst h2
        exact ⟨c, hf, rfl⟩
  · intro key now t h
    have hd : decodeJwt key (get_validator IdIsuser.Id) now t = none := by
      unfold decodeJwt
      rw [if_neg]
      rintro ⟨-, -, h3, -⟩
      exact h h3
    unfold JwtIssuer.recover_token
    rw [hd]

/-- The access token minted for `sampleGrant` at `sampleNow` under key 0. -/
def sampleAccessToken : Jwt := (JwtIssuer.issue 0 sampleNow sampleGrant).token

/-- The grant recovered from `sampleAccessToken`. -/
def sampleRecoveredGrant : Grant :=
  { owner_id := "42", client_id := "dashboard", scope := "user:read",
    redirect_uri := "https://dash.purduehackers.com/api/callback",
    untilTime := (addMonths sampleNow 1).timestamp }

/-- Witness for C5 at the sample access token. -/
theorem jwt_redirect_uri_from_registry_witness :
    ∃ c, VALID_CLIENTS.find?
        (fun cd => decide (cd.client_id = sampleRecoveredGrant.client_id)) = some c
      ∧ sampleRecoveredGrant.redirect_uri = c.url :=
  jwt_redirect_uri_from_registry.1 0 sampleNow.timestamp sampleAccessToken
    sampleRecoveredGrant rfl

/-- C4: issue-then-recover roundtrip.  For a grant `g` of a registered client
(`hreg`), recovering the signed token minted for it at any time `now2` not
past the expiry yields a grant equal to `g` in owner, client and scope; and
for the relational issuer, given the pre-existing grant row `r` for `g`'s
owner and client (created from `g`, so carrying `g`'s scope) and a fresh
opaque token string, issuing and then recovering likewise yields a grant
equal to `g` in owner, client and scope.  (Times are modelled at second
resolution, so equality is modulo sub-second truncation.) -/
theorem issue_recover_roundtrip
    (key : Nat) (now : UtcDateTime) (now2 : Int) (g : Grant) (cd : ClientData)
    (db : Db) (tokStr : String) (nid : Nat) (r : AuthGrantRow) (oid : Int)
    (hreg : VALID_CLIENTS.find? (fun c => decide (c.client_id = g.client_id)) = some cd)
    (hfresh : now2 ≤ (addMonths now 1).timestamp)
    (hoid : parseI32 g.owner_id = some oid)
    (howner : g.owner_id = toString oid)
    (hrow : db.grants.find?
      (fun row => decide (row.owner_id = oid ∧ row.client_id = g.client_id)) = some r)
    (hrid : db.grants.find? (fun row => decide (row.id = r.id)) = some r)
    (hscope : r.scope = g.scope)
    (hnotok : ∀ tk ∈ db.tokens, tk.token ≠ tokStr) :
    JwtIssuer.recover_token key now2 (JwtIssuer.issue key now g).token
      = Except.ok (some
        { owner_id := g.owner_id, client_id := g.client_id, scope := g.scope,
          redirect_uri := cd.url, untilTime := (addMonths now 1).timestamp }) ∧
    (∀ it db', DbIssuer.issue db tokStr nid now g = some (it, db') →
      DbIssuer.recover_token db' it.token = some (some
        { owner_id := g.owner_id, client_id := g.client_id, scope := g.scope,
          redirect_uri := r.redirect_uri, untilTime := it.untilTime })) := by
  have hcd : cd.client_id = g.client_id := by simpa using List.find?_some hreg
  constructor
  · have haud : g.client_id ∈ VALID_CLIENTS.map (fun c => c.client_id) := by
      rw [← hcd]
      exact List.mem_map.mpr ⟨cd, List.mem_of_find?_eq_some hreg, rfl⟩
    have hd : decodeJwt key (get_validator IdIsuser.Id) now2
        (JwtIssuer.issue key now g).token
        = some { sub := g.owner_id, exp := (addMonths now 1).timestamp,
                 iat := now.timestamp, iss := "id", aud := g.client_id,
                 scope := g.scope } := by
      unfold decodeJwt JwtIssuer.issue encodeJwt
      rw [if_pos]
      exact ⟨rfl, rfl, haud, hfresh⟩
    simp only [JwtIssuer.recover_token, hd, hreg]
  · intro it db' h
    unfold DbIssuer.issue at h
    rw [hoid] at h
    simp only [hrow] at h
    injection h with h1
    injection h1 with ha hb
    subst ha
    subst hb
    have hpr : r.owner_id = oid ∧ r.client_id = g.client_id := by
      simpa using List.find?_some hrow
    have hfind : List.find? (fun x => decide (x.token = tokStr))
        (db.tokens ++ [({ id := nid, grant_id := r.id, token := tokStr,
                          untilTime := (addMonths now 1).timestamp } : AuthTokenRow)])
        = some ({ id := nid, grant_id := r.id, token := tokStr,
                  untilTime := (addMonths now 1).timestamp } : AuthTokenRow) := by
      rw [List.find?_append]
      have h1 : db.tokens.find? (fun x => decide (x.token = tokStr)) = none :=
        List.find?_eq_none.mpr (fun x hx => by simpa using hnotok x hx)
      rw [h1]
      simp
    simp only [DbIssuer.recover_token, hfind, hrid]
    rw [hpr.1, hpr.2, hscope, ← howner]

/-- The token row inserted when issuing `"OPQ"` against `sampleDb`. -/
def sampleIssuedRow : AuthTokenRow :=
  { id := 2, grant_id := 1, token := "OPQ", untilTime := (addMonths sampleNow 1).timestamp }

/-- The relational store after that issuance. -/
def sampleDbAfterIssue : Db := { grants := [sampleGrantRow], tokens := [sampleIssuedRow] }

/-- Witness for C4 at the sample grant, store and instant. -/
theorem issue_recover_roundtrip_witness :
    JwtIssuer.recover_token 0 sampleNow.timestamp
        (JwtIssuer.issue 0 sampleNow sampleGrant).token
      = Except.ok (some
        { owner_id := sampleGrant.owner_id, client_id := sampleGrant.client_id,
          scope := sampleGrant.scope, redirect_uri := dashboardClient.url,
          untilTime := (addMonths sampleNow 1).timestamp }) ∧
    DbIssuer.recover_token sampleDbAfterIssue "OPQ" = some (some
        { owner_id := sampleGrant.owner_id, client_id := sampleGrant.client_id,
          scope := sampleGrant.scope, redirect_uri := sampleGrantRow.redirect_uri,
          untilTime := (addMonths sampleNow 1).timestamp }) := by
  have h := issue_recover_roundtrip 0 sampleNow sampleNow.timestamp sampleGrant
    dashboardClient sampleDb "OPQ" 2 sampleGrantRow 42 rfl (by decide) rfl rfl rfl rfl
    rfl (by simp [sampleDb])
  exact ⟨h.1, h.2
    { token := "OPQ", refresh := none, token_type := TokenType.Bearer,
      untilTime := (addMonths sampleNow 1).timestamp } sampleDbAfterIssue rfl⟩

/-- C8: for every valid `GET /authorize` request (registered client, matching
redirect URI, `response_type=code`, scope within the granted scope), the
response is a 303 redirect to the login surface whose URL carries the same
`client_id`, `redirect_uri` and `scope` parameters plus `response_type=code`. -/
theorem get_authorize_redirects_with_params (req : AuthRequest) (resp : RespM)
    (h : handle_get_flow req = some resp) :
    resp.status = 303 ∧
    resp.location = some
      { base := "https://id.purduehackers.com/authorize",
        params := [("client_id", req.client_id), ("redirect_uri", req.redirect_uri),
                   ("scope", req.scope), ("response_type", "code")] } := by
  unfold handle_get_flow at h
  split at h
  · exact Option.noConfusion h
  · split at h
    · simp only [handle_get_solicit, RespM.redirect, RespM.default] at h
      injection h with h1
      rw [← h1]
      exact ⟨rfl, rfl⟩
    · exact Option.noConfusion h

/-- A valid sample request: the dashboard client with its registered redirect
URI and granted scope. -/
def sampleAuthRequest : AuthRequest :=
  { client_id := "dashboard",
    redirect_uri := "https://dash.purduehackers.com/api/callback",
    response_type := "code", scope := "user:read" }

/-- The login-surface redirect produced for `sampleAuthRequest`. -/
def sampleLoginRedirect : RespM :=
  { status := 303,
    location := some
      { base := "https://id.purduehackers.com/authorize",
        params := [("client_id", "dashboard"),
                   ("redirect_uri", "https://dash.purduehackers.com/api/callback"),
                   ("scope", "user:read"), ("response_type", "code")] } }

/-- Witness for C8 at the sample request. -/
theorem get_authorize_redirects_with_params_witness :
    sampleLoginRedirect.status = 303 ∧
    sampleLoginRedirect.location = some
      { base := "https://id.purduehackers.com/authorize",
        params := [("client_id", sampleAuthRequest.client_id),
                   ("redirect_uri", sampleAuthRequest.redirect_uri),
                   ("scope", sampleAuthRequest.scope), ("response_type", "code")] } :=
  get_authorize_redirects_with_params sampleAuthRequest sampleLoginRedirect rfl
